import Mathlib

/-!
Verification of the UNO bot and CLI logic of `uno-engine-py`.

The repository's visible sources are `main.py` (CLI) and
`uno/bots/demon_home_bot.py` (the DemonHomeBot strategy).  The card model,
the player base class and the engine (`uno.engine.card`, `uno.player.player`,
`uno.engine`) are not part of the visible sources, so those parts are
modelled from the specification; everything else is a direct shallow
embedding of the Python code.
-/

/-- Modelled from the spec (missing `uno/engine/card.py`): the card colors,
`{RED, BLUE, GREEN, YELLOW, WILD-sentinel}`. -/
inductive CardColor where
  | RED
  | BLUE
  | GREEN
  | YELLOW
  | WILD
deriving DecidableEq, Repr

/-- Modelled from the spec (missing `uno/engine/card.py`): the card labels,
the closed set `{0..9, SKIP, REVERSE, DRAW_TWO, WILD, WILD_DRAW_FOUR}`.
Numeric labels carry their rank. -/
inductive CardLabel where
  | num (n : Nat)
  | SKIP
  | REVERSE
  | DRAW_TWO
  | WILD
  | WILD_DRAW_FOUR
deriving DecidableEq, Repr

/-- Modelled from the spec (missing `uno/engine/card.py`): an immutable card
with a color and a label. -/
structure Card where
  color : CardColor
  label : CardLabel
deriving DecidableEq, Repr

/-- Modelled from the spec (missing `uno/engine/card.py`):
`can_play_on(card, top_card, active_color)` is true iff
`card.color == active_color`, or `card.label == top_card.label`, or
`card.color` is the wild sentinel. -/
def Card.can_play_on (card : Card) (top_card : Card) (active_color : CardColor) : Bool :=
  card.color == active_color || card.label == top_card.label || card.color == CardColor.WILD

/-- Modelled from the spec (missing `uno/engine/card.py`): the bot's source
tests a label with `hasattr(card.label, 'DRAW_TWO') and card.label.DRAW_TWO`,
treating the special effect as a duck-typed flag on the label; per the spec
these flags identify the card kind, so the test holds exactly of that label. -/
def CardLabel.isDrawTwo : CardLabel → Bool
  | .DRAW_TWO => true
  | _ => false

/-- Modelled from the spec: the duck-typed SKIP flag test on a label. -/
def CardLabel.isSkip : CardLabel → Bool
  | .SKIP => true
  | _ => false

/-- Modelled from the spec: the duck-typed REVERSE flag test on a label. -/
def CardLabel.isReverse : CardLabel → Bool
  | .REVERSE => true
  | _ => false

/-- Modelled from the spec: the duck-typed WILD flag test on a label. -/
def CardLabel.isWild : CardLabel → Bool
  | .WILD => true
  | _ => false

/-- Modelled from the spec: the duck-typed WILD_DRAW_FOUR flag test on a label. -/
def CardLabel.isWildDrawFour : CardLabel → Bool
  | .WILD_DRAW_FOUR => true
  | _ => false

/-- Modelled from the spec: the source's numeric-card test
`hasattr(card.label, 'value') and 0 <= card.label.value <= 9`: the label is a
number in `0..9`. -/
def CardLabel.isNumeric : CardLabel → Bool
  | .num n => n ≤ 9
  | _ => false

/-- Modelled from the spec: `card.label.value` of a numeric label (the rank);
only ever applied to numeric cards by the source. -/
def CardLabel.labelValue : CardLabel → Nat
  | .num n => n
  | _ => 0

/-- The numeric-card test on a card (`demon_home_bot.py`, the `num_cards`
comprehensions). -/
def isNumCard (c : Card) : Bool :=
  c.label.isNumeric

/-- The key `lambda c: c.label.value` used by `max`/`min` over numeric cards. -/
def numValue (c : Card) : Nat :=
  c.label.labelValue

/-- Modelled from the spec (missing `uno/player/player.py`): an action is
either "play this specific card from hand" or "draw a card"; the Python
constructor `PlayerAction(card=None, draw_card=False)` carries an optional
card and a draw flag. -/
structure PlayerAction where
  card : Option Card := none
  draw_card : Bool := false
deriving DecidableEq, Repr

/-- State of a `DemonHomeBot` (`demon_home_bot.py`): the `Player` base
fields `name`, `player_id`, `hand` (modelled from the spec, missing
`uno/player/player.py`) and the bot's own observation fields `_top_card`
and `_current_color`, both `None` until `update_game_state` is called. -/
structure DemonHomeBot where
  name : String
  player_id : Int
  hand : List Card
  _top_card : Option Card := none
  _current_color : Option CardColor := none
deriving DecidableEq, Repr

/-- `DemonHomeBot.update_game_state` (`demon_home_bot.py` lines 17-24):
stores the observed top card and active color; the `playable_cards`
argument is not read. -/
def update_game_state (b : DemonHomeBot) (playable_cards : List Card)
    (top_card : Card) (current_color : CardColor) : DemonHomeBot :=
  { b with _top_card := some top_card, _current_color := some current_color }

/-- `card.can_play_on(self._top_card, self._current_color)` as invoked by the
bot on its observation fields; the engine calls `update_game_state` before
every decision, so both fields are set whenever a decision runs (the `none`
branch is never reached in an engine-driven game). -/
def canPlayOnObs (card : Card) (top : Option Card) (active : Option CardColor) : Bool :=
  match top, active with
  | some t, some a => card.can_play_on t a
  | _, _ => false

/-- The count of cards of a given concrete color in a hand: the
`color_counts` dictionary entry built by `choose_action`. -/
def countColor (hand : List Card) (col : CardColor) : Nat :=
  (hand.filter (fun card => card.color == col)).length

/-- Python's `max(color_counts.items(), key=lambda x: x[1])[0]` over the dict
whose insertion order is RED, BLUE, GREEN, YELLOW: the first color of the
four attaining the maximal count (Python's `max` keeps the first maximal
element). -/
def argmaxColor (f : CardColor → Nat) : CardColor :=
  [CardColor.BLUE, CardColor.GREEN, CardColor.YELLOW].foldl
    (fun best col => if f col > f best then col else best) CardColor.RED

/-- `dominant_color` as computed by `choose_action`. -/
def dominant_color (hand : List Card) : CardColor :=
  argmaxColor (countColor hand)

/-- Python's `max(l, key=f)` on a card list: first element attaining the
maximal key (`max` replaces the current best only on a strictly greater
key); `none` on the empty list, where Python would not call `max`. -/
def pyMax (f : Card → Nat) : List Card → Option Card
  | [] => none
  | c :: cs => some (cs.foldl (fun best x => if f x > f best then x else best) c)

/-- Python's `min(l, key=f)` on a card list: first element attaining the
minimal key. -/
def pyMin (f : Card → Nat) : List Card → Option Card
  | [] => none
  | c :: cs => some (cs.foldl (fun best x => if f x < f best then x else best) c)

/-- The numeric-card choice of the large-hand branch of `choose_action`:
among valid numeric cards of the dominant color, the one with the highest
value; `none` when there is no such card. -/
def numChoiceBig (valid_cards : List Card) (dom : CardColor) : Option Card :=
  let num_cards := valid_cards.filter isNumCard
  let same_color_cards := num_cards.filter (fun c => c.color == dom)
  pyMax numValue same_color_cards

/-- The selection cascade of `choose_action` when `hand_size > 4`
(`demon_home_bot.py` lines 51-88): DRAW_TWO, then SKIP, then REVERSE, then
the highest dominant-color numeric card, then WILD_DRAW_FOUR, then WILD. -/
def selectionBig (valid_cards : List Card) (dom : CardColor) : Option Card :=
  ((((valid_cards.find? (fun c => c.label.isDrawTwo)).or
      (valid_cards.find? (fun c => c.label.isSkip))).or
      (valid_cards.find? (fun c => c.label.isReverse))).or
      (numChoiceBig valid_cards dom)).or
    ((valid_cards.find? (fun c => c.label.isWildDrawFour)).or
      (valid_cards.find? (fun c => c.label.isWild)))

/-- The selection cascade of `choose_action` when `hand_size <= 4`
(`demon_home_bot.py` lines 89-123): WILD_DRAW_FOUR, then WILD, then
DRAW_TWO, then SKIP, then REVERSE, then the lowest numeric card. -/
def selectionSmall (valid_cards : List Card) : Option Card :=
  ((((valid_cards.find? (fun c => c.label.isWildDrawFour)).or
      (valid_cards.find? (fun c => c.label.isWild))).or
      (valid_cards.find? (fun c => c.label.isDrawTwo))).or
      (valid_cards.find? (fun c => c.label.isSkip))).or
    ((valid_cards.find? (fun c => c.label.isReverse)).or
      (pyMin numValue (valid_cards.filter isNumCard)))

/-- The body of `DemonHomeBot.choose_action` (`demon_home_bot.py` lines
26-132) as a function of the fields it reads: the hand and the stored
observation. -/
def choose_action_core (hand : List Card) (top : Option Card)
    (color : Option CardColor) : PlayerAction :=
  let valid_cards := hand.filter (fun card => canPlayOnObs card top color)
  if valid_cards.isEmpty then { card := none, draw_card := true }
  else
    let hand_size := hand.length
    let dom := dominant_color hand
    let selection :=
      if hand_size > 4 then selectionBig valid_cards dom
      else selectionSmall valid_cards
    let selection := selection.or valid_cards.head?
    { card := selection, draw_card := false }

/-- `DemonHomeBot.choose_action`. -/
def choose_action (b : DemonHomeBot) : PlayerAction :=
  choose_action_core b.hand b._top_card b._current_color

/-- The count used by `choose_color`: cards whose label carries neither the
WILD nor the WILD_DRAW_FOUR flag and whose color is the given concrete
color (`demon_home_bot.py` lines 134-152). -/
def countColorNonWild (hand : List Card) (col : CardColor) : Nat :=
  (hand.filter (fun card =>
    !card.label.isWild && !card.label.isWildDrawFour && card.color == col)).length

/-- The body of `DemonHomeBot.choose_color` as a function of the hand. -/
def choose_color_core (hand : List Card) : CardColor :=
  let max_color := argmaxColor (countColorNonWild hand)
  if countColorNonWild hand CardColor.RED + countColorNonWild hand CardColor.BLUE
      + countColorNonWild hand CardColor.GREEN
      + countColorNonWild hand CardColor.YELLOW == 0 then
    CardColor.RED
  else
    max_color

/-- `DemonHomeBot.choose_color` (`demon_home_bot.py` lines 134-152). -/
def choose_color (b : DemonHomeBot) (wild_card : Card) : CardColor :=
  choose_color_core b.hand

/-- `DemonHomeBot.decide_say_uno` (`demon_home_bot.py` lines 154-155):
`return len(self.hand) == 1`. -/
def decide_say_uno (b : DemonHomeBot) : Bool :=
  b.hand.length == 1

/-- `DemonHomeBot.should_play_drawn_card` (`demon_home_bot.py` lines
157-158): `return drawn_card.can_play_on(self._top_card,
self._current_color)`. -/
def should_play_drawn_card (b : DemonHomeBot) (drawn_card : Card) : Bool :=
  canPlayOnObs drawn_card b._top_card b._current_color

/-- `update_game_state` as a state transformer (result, next state); the
method returns `None` and assigns only the two observation fields. -/
def update_game_stateS (b : DemonHomeBot) (playable_cards : List Card)
    (top_card : Card) (current_color : CardColor) : Unit × DemonHomeBot :=
  ((), update_game_state b playable_cards top_card current_color)

/-- `choose_action` as a state transformer: the method body contains no
field assignment, so the state component is the input state. -/
def choose_actionS (b : DemonHomeBot) : PlayerAction × DemonHomeBot :=
  (choose_action b, b)

/-- `choose_color` as a state transformer: no field assignment in the body. -/
def choose_colorS (b : DemonHomeBot) (wild_card : Card) : CardColor × DemonHomeBot :=
  (choose_color b wild_card, b)

/-- `decide_say_uno` as a state transformer: no field assignment in the body. -/
def decide_say_unoS (b : DemonHomeBot) : Bool × DemonHomeBot :=
  (decide_say_uno b, b)

/-- `should_play_drawn_card` as a state transformer: no field assignment in
the body. -/
def should_play_drawn_cardS (b : DemonHomeBot) (drawn_card : Card) :
    Bool × DemonHomeBot :=
  (should_play_drawn_card b drawn_card, b)

/-- The bot type choices of the CLI (`main.py`, `--bots` choices). -/
inductive BotType where
  | RandomBot
  | WildFirstBot
  | WildLastBot
  | DemonHomeBot
deriving DecidableEq, Repr

/-- The name of a bot type, for the default bot name `f"{bot_type}_{i+1}"`. -/
def BotType.typeName : BotType → String
  | .RandomBot => "RandomBot"
  | .WildFirstBot => "WildFirstBot"
  | .WildLastBot => "WildLastBot"
  | .DemonHomeBot => "DemonHomeBot"

/-- The parsed CLI arguments consumed by `UNOCLI.create_bots` and
`UNOCLI.run` (`main.py`): `--games`, `--bots`, optional `--names`, optional
`--seeds` (integers). -/
structure Args where
  games : Nat
  bots : List BotType
  names : Option (List String) := none
  seeds : Option (List Int) := none
deriving DecidableEq, Repr

/-- A constructed bot as `create_bots` produces it: the bot class and the
two constructor arguments `bot_class(name, seed or i + 1)`. -/
structure BotSpec where
  btype : BotType
  bot_name : String
  second_arg : Int
deriving DecidableEq, Repr

/-- `name = args.names[i] if args.names and i < len(args.names) else
f"{bot_type}_{i+1}"` — Python truthiness makes `None` and the empty list
fall through to the default. -/
def argName (names : Option (List String)) (i : Nat) (bt : BotType) : String :=
  match names with
  | some l =>
    if l.isEmpty then bt.typeName ++ "_" ++ toString (i + 1)
    else if h : i < l.length then l.get ⟨i, h⟩
    else bt.typeName ++ "_" ++ toString (i + 1)
  | none => bt.typeName ++ "_" ++ toString (i + 1)

/-- `seed = args.seeds[i] if args.seeds and i < len(args.seeds) else None` —
Python truthiness makes `None` and the empty list yield `None`. -/
def argSeed (seeds : Option (List Int)) (i : Nat) : Option Int :=
  match seeds with
  | some l =>
    if l.isEmpty then none
    else if h : i < l.length then some (l.get ⟨i, h⟩)
    else none
  | none => none

/-- Python's `seed or i + 1`: `None` and the falsy integer `0` are replaced
by the default, any other integer passes through. -/
def seedOr (seed : Option Int) (d : Int) : Int :=
  match seed with
  | none => d
  | some s => if s == 0 then d else s

/-- The bot built at loop index `i` of `create_bots`:
`bot_class(name, seed or i + 1)`. -/
def mkBot (args : Args) (i : Nat) (bt : BotType) : BotSpec :=
  { btype := bt
    bot_name := argName args.names i bt
    second_arg := seedOr (argSeed args.seeds i) (Int.ofNat (i + 1)) }

/-- The `for i, bot_type in enumerate(args.bots)` loop of `create_bots`,
carrying the running index. -/
def create_bots_from (args : Args) (i : Nat) : List BotType → List BotSpec
  | [] => []
  | bt :: rest => mkBot args i bt :: create_bots_from args (i + 1) rest

/-- `UNOCLI.create_bots` (`main.py` lines 103-131). -/
def create_bots (args : Args) : List BotSpec :=
  create_bots_from args 0 args.bots

/-- The first validation of `UNOCLI.run`:
`if args.names and len(args.names) != len(args.bots)`. -/
def namesMismatch (args : Args) : Bool :=
  match args.names with
  | none => false
  | some l => !l.isEmpty && l.length != args.bots.length

/-- The second validation of `UNOCLI.run`:
`if args.seeds and len(args.seeds) != len(args.bots)`. -/
def seedsMismatch (args : Args) : Bool :=
  match args.seeds with
  | none => false
  | some l => !l.isEmpty && l.length != args.bots.length

/-- `UNOCLI.run` (`main.py` lines 151-187): the two `parser.error` checks run
first, then `create_bots`, then the simulation.  `parser.error` aborts, so
the error branches return before any bot is constructed; the simulation
itself (`UnoSimulation`, missing from the visible sources) is abstracted to
the list of bots handed to it, which is what `run` constructs on the
success path. -/
def run (args : Args) : Except String (List BotSpec) :=
  if namesMismatch args then
    Except.error "Number of names must match number of bots"
  else if seedsMismatch args then
    Except.error "Number of seeds must match number of bots"
  else
    Except.ok (create_bots args)

theorem or_eq_some_cases {α : Type} {a b : Option α} {c : α}
    (h : a.or b = some c) : a = some c ∨ b = some c := by
  cases a <;> simp_all [Option.or]

theorem foldl_pick_mem {α : Type} (g : α → α → α)
    (hg : ∀ best x, g best x = best ∨ g best x = x)
    (cs : List α) : ∀ c : α, cs.foldl g c ∈ c :: cs := by
  induction cs with
  | nil => intro c; simp
  | cons x xs ih =>
    intro c
    simp only [List.foldl_cons]
    rcases List.mem_cons.mp (ih (g c x)) with h2 | h2
    · rw [h2]
      rcases hg c x with h1 | h1 <;> rw [h1] <;> simp
    · simp only [List.mem_cons] at h2 ⊢
      tauto

theorem pyMax_mem {f : Card → Nat} {l : List Card} {c : Card}
    (h : pyMax f l = some c) : c ∈ l := by
  match l with
  | [] => simp [pyMax] at h
  | x :: xs =>
    simp only [pyMax, Option.some.injEq] at h
    rw [← h]
    exact foldl_pick_mem _ (fun best y => by by_cases hc : f y > f best <;> simp [hc]) xs x

theorem pyMin_mem {f : Card → Nat} {l : List Card} {c : Card}
    (h : pyMin f l = some c) : c ∈ l := by
  match l with
  | [] => simp [pyMin] at h
  | x :: xs =>
    simp only [pyMin, Option.some.injEq] at h
    rw [← h]
    exact foldl_pick_mem _ (fun best y => by by_cases hc : f y < f best <;> simp [hc]) xs x

theorem numChoiceBig_mem {vc : List Card} {dom : CardColor} {c : Card}
    (h : numChoiceBig vc dom = some c) : c ∈ vc := by
  unfold numChoiceBig at h
  simp only at h
  have h1 := pyMax_mem h
  exact (List.mem_filter.mp (List.mem_filter.mp h1).1).1

theorem selectionBig_mem {vc : List Card} {dom : CardColor} {c : Card}
    (h : selectionBig vc dom = some c) : c ∈ vc := by
  unfold selectionBig at h
  rcases or_eq_some_cases h with h | h
  · rcases or_eq_some_cases h with h | h
    · rcases or_eq_some_cases h with h | h
      · rcases or_eq_some_cases h with h | h
        · exact List.mem_of_find?_eq_some h
        · exact List.mem_of_find?_eq_some h
      · exact List.mem_of_find?_eq_some h
    · exact numChoiceBig_mem h
  · rcases or_eq_some_cases h with h | h
    · exact List.mem_of_find?_eq_some h
    · exact List.mem_of_find?_eq_some h

theorem selectionSmall_mem {vc : List Card} {c : Card}
    (h : selectionSmall vc = some c) : c ∈ vc := by
  unfold selectionSmall at h
  rcases or_eq_some_cases h with h | h
  · rcases or_eq_some_cases h with h | h
    · rcases or_eq_some_cases h with h | h
      · rcases or_eq_some_cases h with h | h
        · exact List.mem_of_find?_eq_some h
        · exact List.mem_of_find?_eq_some h
      · exact List.mem_of_find?_eq_some h
    · exact List.mem_of_find?_eq_some h
  · rcases or_eq_some_cases h with h | h
    · exact List.mem_of_find?_eq_some h
    · exact (List.mem_filter.mp (pyMin_mem h)).1

theorem choose_action_core_cases (hand : List Card) (t : Card) (a : CardColor) :
    (choose_action_core hand (some t) (some a) = { card := none, draw_card := true } ∧
      ∀ c ∈ hand, c.can_play_on t a = false) ∨
    (∃ sel, choose_action_core hand (some t) (some a) =
        { card := some sel, draw_card := false } ∧
      sel ∈ hand ∧ sel.can_play_on t a = true) := by
  by_cases hvc : (hand.filter (fun card => canPlayOnObs card (some t) (some a))).isEmpty
  · left
    refine ⟨by simp only [choose_action_core]; rw [if_pos hvc], ?_⟩
    intro c hc
    have hnil := List.isEmpty_iff.mp hvc
    have h2 := List.filter_eq_nil_iff.mp hnil c hc
    simpa [canPlayOnObs] using h2
  · right
    set vc := hand.filter (fun card => canPlayOnObs card (some t) (some a)) with hvcdef
    have hne : vc ≠ [] := fun h => hvc (List.isEmpty_iff.mpr h)
    have hmem : ∀ c, c ∈ vc → c ∈ hand ∧ c.can_play_on t a = true := by
      intro c hc
      have := List.mem_filter.mp hc
      simpa [canPlayOnObs] using this
    have hform : choose_action_core hand (some t) (some a) =
        { card := Option.or
            (if hand.length > 4 then selectionBig vc (dominant_color hand)
             else selectionSmall vc) vc.head?,
          draw_card := false } := by
      simp only [choose_action_core]
      rw [if_neg hvc]
    rcases hsel : (if hand.length > 4 then selectionBig vc (dominant_color hand)
        else selectionSmall vc) with _ | c
    · have hhead : vc.head? = some (vc.head hne) := List.head?_eq_head hne
      have hm := hmem (vc.head hne) (List.head_mem hne)
      exact ⟨vc.head hne, by rw [hform, hsel, hhead]; rfl, hm.1, hm.2⟩
    · have hcvc : c ∈ vc := by
        by_cases hbig : hand.length > 4
        · rw [if_pos hbig] at hsel
          exact selectionBig_mem hsel
        · rw [if_neg hbig] at hsel
          exact selectionSmall_mem hsel
      have hm := hmem c hcvc
      exact ⟨c, by rw [hform, hsel]; rfl, hm.1, hm.2⟩

theorem argmaxColor_concrete (f : CardColor → Nat) :
    argmaxColor f = CardColor.RED ∨ argmaxColor f = CardColor.BLUE ∨
    argmaxColor f = CardColor.GREEN ∨ argmaxColor f = CardColor.YELLOW := by
  have h := foldl_pick_mem (fun best col => if f col > f best then col else best)
    (fun best y => by by_cases hc : f y > f best <;> simp [hc])
    [CardColor.BLUE, CardColor.GREEN, CardColor.YELLOW] CardColor.RED
  simpa [argmaxColor, List.mem_cons] using h

/-- C1: for every hand and previously observed (top card, active color),
`DemonHomeBot.choose_action` returns either a draw request, or a play of a
card that is in the hand and satisfies `can_play_on` against the observed
top card and active color; whenever at least one card is playable the play
action carries a non-None card. -/
theorem demon_choose_action_legal (b : DemonHomeBot) (top_card : Card)
    (active_color : CardColor) (ht : b._top_card = some top_card)
    (hc : b._current_color = some active_color) :
    (choose_action b = { card := none, draw_card := true } ∧
      ∀ c ∈ b.hand, c.can_play_on top_card active_color = false) ∨
    (∃ sel, choose_action b = { card := some sel, draw_card := false } ∧
      sel ∈ b.hand ∧ sel.can_play_on top_card active_color = true) := by
  have h := choose_action_core_cases b.hand top_card active_color
  simp only [choose_action, ht, hc]
  exact h

/-- Concrete input for the C1 witness: a bot holding one red numeric card
with a red numeric card on top and red as the active color. -/
def c1bot : DemonHomeBot :=
  { name := "demon", player_id := 1,
    hand := [{ color := CardColor.RED, label := CardLabel.num 3 }],
    _top_card := some { color := CardColor.RED, label := CardLabel.num 5 },
    _current_color := some CardColor.RED }

/-- Witness for C1 at a concrete bot state. -/
theorem demon_choose_action_legal_witness :
    (choose_action c1bot = { card := none, draw_card := true } ∧
      ∀ c ∈ c1bot.hand,
        c.can_play_on { color := CardColor.RED, label := CardLabel.num 5 }
          CardColor.RED = false) ∨
    (∃ sel, choose_action c1bot = { card := some sel, draw_card := false } ∧
      sel ∈ c1bot.hand ∧
      sel.can_play_on { color := CardColor.RED, label := CardLabel.num 5 }
        CardColor.RED = true) :=
  demon_choose_action_legal c1bot
    { color := CardColor.RED, label := CardLabel.num 5 } CardColor.RED rfl rfl

/-- C2: for every hand (including the empty hand and hands of only wild
cards), `DemonHomeBot.choose_color` returns one of the four concrete colors
RED, BLUE, GREEN or YELLOW, and never the wild sentinel. -/
theorem demon_choose_color_concrete (b : DemonHomeBot) (wild_card : Card) :
    (choose_color b wild_card = CardColor.RED ∨
     choose_color b wild_card = CardColor.BLUE ∨
     choose_color b wild_card = CardColor.GREEN ∨
     choose_color b wild_card = CardColor.YELLOW) ∧
    choose_color b wild_card ≠ CardColor.WILD := by
  have h : choose_color b wild_card = CardColor.RED ∨
      choose_color b wild_card = CardColor.BLUE ∨
      choose_color b wild_card = CardColor.GREEN ∨
      choose_color b wild_card = CardColor.YELLOW := by
    simp only [choose_color, choose_color_core]
    split
    · exact Or.inl rfl
    · exact argmaxColor_concrete _
  refine ⟨h, ?_⟩
  rcases h with h | h | h | h <;> rw [h] <;> simp

/-- C3: `DemonHomeBot.should_play_drawn_card` returns exactly the value of
`can_play_on` of the drawn card against the last observed top card and
active color: true when the drawn card is playable, false otherwise. -/
theorem demon_should_play_drawn_card_spec (b : DemonHomeBot)
    (drawn_card top_card : Card) (active_color : CardColor)
    (ht : b._top_card = some top_card)
    (hc : b._current_color = some active_color) :
    should_play_drawn_card b drawn_card =
      drawn_card.can_play_on top_card active_color := by
  simp only [should_play_drawn_card, ht, hc, canPlayOnObs]

/-- Concrete input for the C3 witness. -/
def c3bot : DemonHomeBot :=
  { name := "demon", player_id := 1,
    hand := [],
    _top_card := some { color := CardColor.RED, label := CardLabel.num 5 },
    _current_color := some CardColor.RED }

/-- Witness for C3 at a concrete bot state and drawn card. -/
theorem demon_should_play_drawn_card_spec_witness :
    should_play_drawn_card c3bot { color := CardColor.BLUE, label := CardLabel.num 7 } =
      Card.can_play_on { color := CardColor.BLUE, label := CardLabel.num 7 }
        { color := CardColor.RED, label := CardLabel.num 5 } CardColor.RED :=
  demon_should_play_drawn_card_spec c3bot
    { color := CardColor.BLUE, label := CardLabel.num 7 }
    { color := CardColor.RED, label := CardLabel.num 5 } CardColor.RED rfl rfl

/-- C4: `DemonHomeBot.decide_say_uno` returns true exactly when the hand
contains one card (the situation in which the engine invokes it), so the
bot always declares and is never exposed to the missed-declaration
penalty; for every other hand size it returns false. -/
theorem demon_decide_say_uno_spec (b : DemonHomeBot) :
    decide_say_uno b = true ↔ b.hand.length = 1 := by
  simp [decide_say_uno]

/-- C5: `DemonHomeBot.update_game_state` is idempotent: updating twice with
the same arguments leaves exactly the state of updating once, and
`choose_action` afterwards returns the same action in both cases. -/
theorem demon_update_game_state_idem (b : DemonHomeBot)
    (playable_cards : List Card) (top_card : Card) (current_color : CardColor) :
    update_game_state (update_game_state b playable_cards top_card current_color)
        playable_cards top_card current_color =
      update_game_state b playable_cards top_card current_color ∧
    choose_action
        (update_game_state (update_game_state b playable_cards top_card current_color)
          playable_cards top_card current_color) =
      choose_action (update_game_state b playable_cards top_card current_color) :=
  ⟨rfl, rfl⟩

/-- C6: none of DemonHomeBot's operations mutates the hand or its
arguments: as state transformers, `update_game_state` writes only the
observation fields `_top_card` and `_current_color` and preserves `hand`,
`name` and `player_id`, while `choose_action`, `choose_color`,
`decide_say_uno` and `should_play_drawn_card` leave the whole bot state
unchanged (their Python bodies contain no assignment; all values are
immutable in the embedding). -/
theorem demon_bot_frame (b : DemonHomeBot) (playable_cards : List Card)
    (top_card wild_card drawn_card : Card) (current_color : CardColor) :
    (update_game_stateS b playable_cards top_card current_color).2.hand = b.hand ∧
    (update_game_stateS b playable_cards top_card current_color).2.name = b.name ∧
    (update_game_stateS b playable_cards top_card current_color).2.player_id = b.player_id ∧
    (update_game_stateS b playable_cards top_card current_color).2 =
      { b with _top_card := some top_card, _current_color := some current_color } ∧
    (choose_actionS b).2 = b ∧
    (choose_colorS b wild_card).2 = b ∧
    (decide_say_unoS b).2 = b ∧
    (should_play_drawn_cardS b drawn_card).2 = b :=
  ⟨rfl, rfl, rfl, rfl, rfl, rfl, rfl, rfl⟩

/-- C7: `UNOCLI.run` surfaces a roster mismatch before any round starts:
when the number of supplied names or the number of supplied seeds differs
from the number of bots, `run` returns the parser error and never the
success result in which bots are constructed and the simulation runs. -/
theorem cli_run_mismatch_error (args : Args)
    (h : (∃ ns, args.names = some ns ∧ ns ≠ [] ∧ ns.length ≠ args.bots.length) ∨
         (∃ ss, args.seeds = some ss ∧ ss ≠ [] ∧ ss.length ≠ args.bots.length)) :
    (∃ msg, run args = Except.error msg) ∧ ∀ bots, run args ≠ Except.ok bots := by
  have key : namesMismatch args = true ∨ seedsMismatch args = true := by
    rcases h with ⟨ns, hn, hne, hlen⟩ | ⟨ss, hs, hne, hlen⟩
    · left
      simp [namesMismatch, hn, List.isEmpty_eq_false.mpr hne, hlen]
    · right
      simp [seedsMismatch, hs, List.isEmpty_eq_false.mpr hne, hlen]
  have herr : ∃ msg, run args = Except.error msg := by
    by_cases hm : namesMismatch args
    · refine ⟨"Number of names must match number of bots", ?_⟩
      simp [run, hm]
    · rcases key with k | k
      · exact absurd k hm
      · refine ⟨"Number of seeds must match number of bots", ?_⟩
        simp [run, hm, k]
  refine ⟨herr, ?_⟩
  intro bots hok
  rcases herr with ⟨msg, hmsg⟩
  rw [hok] at hmsg
  exact Except.noConfusion hmsg

/-- Concrete input for the C7 witness: two bots but a single name. -/
def c7args : Args :=
  { games := 1, bots := [BotType.DemonHomeBot, BotType.WildFirstBot],
    names := some ["OnlyOne"], seeds := none }

/-- Witness for C7 at a concrete argument record. -/
theorem cli_run_mismatch_error_witness :
    (∃ msg, run c7args = Except.error msg) ∧ ∀ bots, run c7args ≠ Except.ok bots :=
  cli_run_mismatch_error c7args (Or.inl ⟨["OnlyOne"], rfl, by decide, by decide⟩)

/-- C8: every DemonHomeBot decision is a deterministic pure function of the
hand and the observed state: two bot states agreeing on `hand`,
`_top_card` and `_current_color` (whatever their name and id) produce equal
results from `choose_action`, `choose_color`, `decide_say_uno` and
`should_play_drawn_card`; no random source is consulted. -/
theorem demon_decisions_deterministic (b b' : DemonHomeBot)
    (wild_card drawn_card : Card)
    (hh : b.hand = b'.hand) (ht : b._top_card = b'._top_card)
    (hc : b._current_color = b'._current_color) :
    choose_action b = choose_action b' ∧
    choose_color b wild_card = choose_color b' wild_card ∧
    decide_say_uno b = decide_say_uno b' ∧
    should_play_drawn_card b drawn_card = should_play_drawn_card b' drawn_card := by
  refine ⟨?_, ?_, ?_, ?_⟩ <;>
    simp only [choose_action, choose_color, decide_say_uno,
      should_play_drawn_card, hh, ht, hc]

/-- Concrete input for the C8 witness: two bots differing only in name and
id. -/
def c8bot1 : DemonHomeBot :=
  { name := "A", player_id := 1,
    hand := [{ color := CardColor.GREEN, label := CardLabel.num 2 }],
    _top_card := some { color := CardColor.GREEN, label := CardLabel.num 9 },
    _current_color := some CardColor.GREEN }

/-- Second bot for the C8 witness, same observations as `c8bot1`. -/
def c8bot2 : DemonHomeBot :=
  { name := "B", player_id := 2,
    hand := [{ color := CardColor.GREEN, label := CardLabel.num 2 }],
    _top_card := some { color := CardColor.GREEN, label := CardLabel.num 9 },
    _current_color := some CardColor.GREEN }

/-- Witness for C8 at two concrete bot states. -/
theorem demon_decisions_deterministic_witness :
    choose_action c8bot1 = choose_action c8bot2 ∧
    choose_color c8bot1 { color := CardColor.WILD, label := CardLabel.WILD } =
      choose_color c8bot2 { color := CardColor.WILD, label := CardLabel.WILD } ∧
    decide_say_uno c8bot1 = decide_say_uno c8bot2 ∧
    should_play_drawn_card c8bot1 { color := CardColor.RED, label := CardLabel.num 1 } =
      should_play_drawn_card c8bot2 { color := CardColor.RED, label := CardLabel.num 1 } :=
  demon_decisions_deterministic c8bot1 c8bot2
    { color := CardColor.WILD, label := CardLabel.WILD }
    { color := CardColor.RED, label := CardLabel.num 1 } rfl rfl rfl

/-- C9: the `playable_cards` argument of `update_game_state` has no
influence on any subsequent decision: runs differing only in that list
leave identical bot state and make `choose_action`, `choose_color`,
`decide_say_uno` and `should_play_drawn_card` return identical results. -/
theorem playable_cards_no_influence (b : DemonHomeBot) (pc pc' : List Card)
    (top_card wild_card drawn_card : Card) (current_color : CardColor) :
    update_game_state b pc top_card current_color =
      update_game_state b pc' top_card current_color ∧
    choose_action (update_game_state b pc top_card current_color) =
      choose_action (update_game_state b pc' top_card current_color) ∧
    choose_color (update_game_state b pc top_card current_color) wild_card =
      choose_color (update_game_state b pc' top_card current_color) wild_card ∧
    decide_say_uno (update_game_state b pc top_card current_color) =
      decide_say_uno (update_game_state b pc' top_card current_color) ∧
    should_play_drawn_card (update_game_state b pc top_card current_color) drawn_card =
      should_play_drawn_card (update_game_state b pc' top_card current_color) drawn_card :=
  ⟨rfl, rfl, rfl, rfl, rfl⟩

theorem create_bots_from_elem (args : Args) :
    ∀ (l : List BotType) (j i : Nat) (h : i < l.length),
      (create_bots_from args j l)[i]? = some (mkBot args (j + i) (l.get ⟨i, h⟩)) := by
  intro l
  induction l with
  | nil => intro j i h; simp at h
  | cons bt rest ih =>
    intro j i h
    cases i with
    | zero => simp [create_bots_from]
    | succ k =>
      have hk : k < rest.length := by simpa using h
      have hidx : j + (k + 1) = (j + 1) + k := by omega
      simp only [create_bots_from, List.getElem?_cons_succ]
      rw [hidx]
      exact ih (j + 1) k hk

/-- C10: a user-specified per-player seed of 0 is silently replaced by the
positional default: `create_bots` builds bot `i` with second constructor
argument `i + 1` when `args.seeds[i] == 0` (Python's falsy `seed or i + 1`),
and passes any non-zero seed through unchanged. -/
theorem cli_seed_zero_replaced (args : Args) (i : Nat) (l : List Int)
    (hs : args.seeds = some l) (hne : l ≠ []) (hi : i < l.length)
    (hib : i < args.bots.length) :
    ∃ b, (create_bots args)[i]? = some b ∧
      b.second_arg =
        (if l.get ⟨i, hi⟩ = 0 then Int.ofNat (i + 1) else l.get ⟨i, hi⟩) := by
  refine ⟨mkBot args i (args.bots.get ⟨i, hib⟩), ?_, ?_⟩
  · have h := create_bots_from_elem args args.bots 0 i hib
    simpa [create_bots] using h
  · simp [mkBot, seedOr, argSeed, hs, List.isEmpty_eq_false.mpr hne, hi, beq_iff_eq]

/-- Concrete input for the C10 witness: two bots, seeds `[0, 5]`. -/
def c10args : Args :=
  { games := 1, bots := [BotType.RandomBot, BotType.RandomBot],
    names := none, seeds := some [0, 5] }

/-- Witness for C10: with seeds `[0, 5]`, bot 0 gets second argument 1 (the
positional default replacing the falsy 0). -/
theorem cli_seed_zero_replaced_witness :
    ∃ b, (create_bots c10args)[0]? = some b ∧ b.second_arg = 1 := by
  have h := cli_seed_zero_replaced c10args 0 [0, 5] rfl (by decide) (by decide) (by decide)
  simpa using h
